import Mathlib

/-
Verification of the userbase repository (bot.py, main.py, models.py):
a Telegram chat bot that upserts every observed user identity into a
document store and lets admin operators export the stored records.

The definitions below are a shallow embedding of the Python sources:
  * bot.py   : save_or_update_user (pymongo update_one with upsert=True),
               is_admin, start_command, ping_command, id_command, full_command,
               get_env_var and the module-level startup sequence.
  * main.py  : the prototype /start handler (find_one followed by insert_one)
               and its unvalidated environment reads.
  * models.py: the TelegramUser schema and the DATABASE_URL check.
Timestamps are naturals; the document store is a list of records; fallible
driver calls take an explicit outcome argument; raising is an Except error.
-/

namespace Userbase

/-- Timestamps (datetime.utcnow values), modelled as naturals. -/
abbrev Time := Nat

/-- The identity tuple delivered by the chat platform
(telegram User: id, first_name, last_name, username, is_bot). -/
structure Observation where
  id : Int
  first_name : String
  last_name : Option String
  username : Option String
  is_bot : Bool
deriving DecidableEq

/-- One document of the telegram_users collection, as written by bot.py
(fields as in models.py TelegramUser: optional fields are stored as null). -/
structure Record where
  telegram_id : Int
  first_name : String
  last_name : Option String
  username : Option String
  is_bot : Bool
  created_at : Time
  updated_at : Time
deriving DecidableEq

/-- The telegram_users collection: a sequence of documents in insertion order. -/
abbrev Store := List Record

/-- find_one on the filter, yielding the first document whose telegram_id matches. -/
def findRec (s : Store) (i : Int) : Option Record :=
  s.find? (fun r => r.telegram_id == i)

/-- Number of documents in the collection whose telegram_id matches. -/
def countId (s : Store) (i : Int) : Nat :=
  s.countP (fun r => r.telegram_id == i)

/-- bot.py lines 63-74: telegram_users_collection.update_one with filter
telegram_id = user.id, update operators $set (first_name, last_name, username,
is_bot, updated_at := first utcnow sample tSet) and $setOnInsert (telegram_id,
created_at := second utcnow sample tSoi), and upsert=True.  The first matching
document is updated in place; with no match a new document made of the filter,
$set and $setOnInsert fields is appended.  The two utcnow() calls in the source
are distinct, so they are two parameters: tSet is sampled while building the
$set document (line 69) and tSoi while building the $setOnInsert document
(line 71), in that order. -/
def update_one : Store → Observation → Time → Time → Store
  | [], u, tSet, tSoi =>
    [⟨u.id, u.first_name, u.last_name, u.username, u.is_bot, tSoi, tSet⟩]
  | r :: rs, u, tSet, tSoi =>
    if r.telegram_id == u.id then
      ⟨r.telegram_id, u.first_name, u.last_name, u.username, u.is_bot,
        r.created_at, tSet⟩ :: rs
    else
      r :: update_one rs u tSet tSoi

/-- Whether the driver call raises (connection loss etc.) or succeeds. -/
inductive StoreOutcome
  | ok
  | fault
deriving DecidableEq

/-- Result of one save_or_update_user call: the collection afterwards, whether
the collection was accessed at all, and whether an exception escapes the
function. -/
structure UpsertRun where
  store : Store
  accessed : Bool
  raised : Bool
deriving DecidableEq

/-- bot.py lines 59-80, save_or_update_user: `if not user: return` guard, then
the update_one call wrapped in try/except Exception (the fault is logged and
swallowed, nothing re-raises). -/
def save_or_update_user (user : Option Observation) (tSet tSoi : Time)
    (io : StoreOutcome) (s : Store) : UpsertRun :=
  match user with
  | none => ⟨s, false, false⟩
  | some u =>
    match io with
    | .ok => ⟨update_one s u tSet tSoi, true, false⟩
    | .fault => ⟨s, true, false⟩

/-- An outbound effect of a handler: nothing at all (a bare `return`),
a plain-text reply, a document attachment, or an edited message. -/
inductive Reply
  | silent
  | text (s : String)
  | doc (filename : String) (body : String) (caption : Option String)
  | edit (s : String)
deriving DecidableEq

/-- Result of one admin-command handler invocation: the outbound effect,
whether the database was touched, and whether an exception escapes. -/
structure HandlerRun where
  reply : Reply
  storeAccessed : Bool
  propagates : Bool
deriving DecidableEq

/-- bot.py lines 55-57: membership of the user id in SUDO_OWNER_IDS. -/
def is_admin (sudoIds : List Int) (user_id : Int) : Bool :=
  sudoIds.contains user_id

/-- Python str.join: the separator is placed between consecutive elements. -/
def pyJoin (sep : String) : List String → String
  | [] => ""
  | [x] => x
  | x :: xs => x ++ sep ++ pyJoin sep xs

/-- bot.py line 133: the /id report body, str(telegram_id) joined by comma-space. -/
def renderIdList (rs : Store) : String :=
  pyJoin ", " (rs.map (fun r => toString r.telegram_id))

/-- Follows the words of the spec, for comparison with renderIdList:
a comma-and-space-joined list of the id values as decimal strings. -/
def idListSpec : List Int → String
  | [] => ""
  | [i] => toString i
  | i :: is => toString i ++ ", " ++ idListSpec is

/-- Python str.strip(): remove leading and trailing whitespace. -/
def pyStrip (s : String) : String :=
  String.mk (((s.toList.dropWhile Char.isWhitespace).reverse.dropWhile
    Char.isWhitespace).reverse)

/-- Python f-string rendering of a field that may be null: doc.get of a present
key whose value is None yields None, which formats as the text None. -/
def pyShowOpt : Option String → String
  | some s => s
  | none => "None"

/-- bot.py line 151: `f"@{username}" if username else "N/A"` (None and the
empty string are falsy). -/
def usernameField : Option String → String
  | some s => if s = "" then "N/A" else "@" ++ s
  | none => "N/A"

/-- bot.py lines 150-152: one record line of the /full report. -/
def reportLine (r : Record) : String :=
  pyStrip (r.first_name ++ " " ++ pyShowOpt r.last_name) ++ ", " ++
    usernameField r.username ++ ", " ++ toString r.telegram_id

/-- bot.py line 146: the header line of the /full report. -/
def reportHeader : String := "Full Name, Username, Telegram ID"

/-- bot.py lines 146-158: the /full report body, the header line followed by
one line per record, joined by newlines. -/
def full_report_content (rs : Store) : String :=
  pyJoin "\n" (reportHeader :: rs.map reportLine)

/-- bot.py lines 131 and 155: the reply used by both exports on an empty store. -/
def emptyDbMsg : String := "The database is empty. No users have registered yet."

/-- bot.py lines 139 and 167: the generic failure reply of both exports. -/
def reportErrMsg : String := "An error occurred while generating the report."

/-- bot.py lines 127-139 inside the try: the /id reply as a function of the
scan outcome (a raised scan is caught and answered with the failure text). -/
def id_reply : Except Unit Store → Reply
  | .error _ => .text reportErrMsg
  | .ok rs =>
    if (rs.map (fun r => toString r.telegram_id)).isEmpty then .text emptyDbMsg
    else .doc "telegram_user_ids.txt" (renderIdList rs) none

/-- bot.py lines 124-139, id_command: silent return for non-admins, otherwise
the scan runs and the reply is computed with every exception caught. -/
def id_command (sudoIds : List Int) (uid : Int)
    (scan : Except Unit Store) : HandlerRun :=
  if !(is_admin sudoIds uid) then ⟨.silent, false, false⟩
  else ⟨id_reply scan, true, false⟩

/-- bot.py lines 144-167 inside the try: the /full reply as a function of the
scan outcome. -/
def full_reply : Except Unit Store → Reply
  | .error _ => .text reportErrMsg
  | .ok rs =>
    if rs.length = 0 then .text emptyDbMsg
    else .doc "full_user_report.txt" (full_report_content rs)
      (some ("Total users registered: " ++ toString rs.length))

/-- bot.py lines 141-167, full_command: silent return for non-admins, otherwise
the scan runs and the reply is computed with every exception caught. -/
def full_command (sudoIds : List Int) (uid : Int)
    (scan : Except Unit Store) : HandlerRun :=
  if !(is_admin sudoIds uid) then ⟨.silent, false, false⟩
  else ⟨full_reply scan, true, false⟩

/-- bot.py lines 114-122: the edited Pong message; the db ping is wrapped in
try/except, a fault turns the status into FAILED. -/
def ping_reply (botLat dbLat : String) : Except Unit Unit → Reply
  | .ok _ =>
    .edit ("Pong! 🏓\n\nBot latency: " ++ botLat ++ " ms\nDatabase ping: " ++
      dbLat ++ " ms")
  | .error _ =>
    .edit ("Pong! 🏓\n\nBot latency: " ++ botLat ++ " ms\nDatabase ping: FAILED")

/-- bot.py lines 108-122, ping_command: silent return for non-admins, otherwise
the database is probed and the status reported. -/
def ping_command (sudoIds : List Int) (uid : Int) (botLat dbLat : String)
    (png : Except Unit Unit) : HandlerRun :=
  if !(is_admin sudoIds uid) then ⟨.silent, false, false⟩
  else ⟨ping_reply botLat dbLat png, true, false⟩

/-- bot.py line 90: the /start confirmation text. -/
def startReplyMsg : String :=
  "✅ Thank you! Bot is updated and will receive all future updates."

/-- bot.py lines 84-90, start_command: the upsert (whose faults are swallowed
inside save_or_update_user) followed unconditionally by the confirmation reply. -/
def start_command (user : Option Observation) (tSet tSoi : Time)
    (io : StoreOutcome) (s : Store) : Store × Reply :=
  ((save_or_update_user user tSet tSoi io s).store, .text startReplyMsg)

/-- One document of main.py's users collection (only user_id and username). -/
structure MRec where
  user_id : Int
  username : Option String
deriving DecidableEq

/-- main.py's users collection. -/
abbrev MStore := List MRec

/-- main.py line 26: users_collection.find_one on the user_id filter. -/
def find_one (s : MStore) (uid : Int) : Option MRec :=
  s.find? (fun r => r.user_id == uid)

/-- main.py line 27: users_collection.insert_one appends a new document. -/
def insert_one (s : MStore) (r : MRec) : MStore := s ++ [r]

/-- main.py lines 21-32, the /start handler run without interference:
if find_one returns nothing, insert and report the added message, otherwise
leave the store alone and report the already-present message. -/
def start (s : MStore) (uid : Int) (uname : Option String) : MStore × String :=
  if (find_one s uid).isNone then
    (insert_one s ⟨uid, uname⟩, "✅ You have been added to the database.")
  else
    (s, "ℹ️ You are already in the database.")

/-- main.py lines 21-32 with an explicit storage outcome: there is no
try/except in this handler, so a raised find_one escapes the handler. -/
def mainStart (uid : Int) (uname : Option String) (io : StoreOutcome)
    (s : MStore) : Except Unit (MStore × String) :=
  match io with
  | .fault => .error ()
  | .ok => .ok (start s uid uname)

/-- Number of documents in main.py's collection whose user_id matches. -/
def countMId (s : MStore) (i : Int) : Nat :=
  s.countP (fun r => r.user_id == i)

/-- Scheduler thread identifiers for two concurrent /start invocations. -/
inductive Tid
  | A
  | B
deriving DecidableEq

/-- Interleaving state: the shared collection plus each thread's local result
of its find_one (none while the thread has not read yet; some d once it has,
with d true when the read found no document and the thread will insert). -/
structure RaceState where
  store : MStore
  a : Option Bool
  b : Option Bool
deriving DecidableEq

/-- One scheduler step of the two in-flight main.py /start invocations, per
the spec's scheduling model in which handler invocations run concurrently.
A thread's first step executes its find_one against the current shared store;
its second step executes its conditional insert_one using the decision taken
at its own earlier read.  Each thread is scheduled exactly twice. -/
def raceStep (uidA uidB : Int) (unA unB : Option String) :
    RaceState → Tid → RaceState
  | ⟨s, none, b⟩, .A => ⟨s, some (find_one s uidA).isNone, b⟩
  | ⟨s, some d, b⟩, .A => ⟨if d then insert_one s ⟨uidA, unA⟩ else s, some d, b⟩
  | ⟨s, a, none⟩, .B => ⟨s, a, some (find_one s uidB).isNone⟩
  | ⟨s, a, some d⟩, .B => ⟨if d then insert_one s ⟨uidB, unB⟩ else s, a, some d⟩

/-- Run a schedule of the two invocations from the empty collection. -/
def runSchedule (uidA uidB : Int) (unA unB : Option String)
    (sched : List Tid) : RaceState :=
  sched.foldl (raceStep uidA uidB unA unB) ⟨[], none, none⟩

/-- The process environment: a map from variable names to optional values. -/
abbrev Env := String → Option String

/-- bot.py lines 24-29, get_env_var: os.getenv, then `if not value` raises
ValueError (both an unset variable and an empty string are falsy). -/
def get_env_var (env : Env) (vname : String) : Except Unit String :=
  match env vname with
  | some v => if v = "" then .error () else .ok v
  | none => .error ()

/-- Outcome of bot.py's module-level startup: either the process exits with a
status code or it proceeds with the three resolved configuration values. -/
inductive BotStartup
  | exited (code : Nat)
  | running (token sudoStr mongoUrl : String)
deriving DecidableEq

/-- bot.py lines 31-37: the three get_env_var calls in order inside try; the
first ValueError is logged and the process exits with status 1. -/
def botStartup (env : Env) : BotStartup :=
  match get_env_var env "TELEGRAM_BOT_TOKEN" with
  | .error _ => .exited 1
  | .ok tok =>
    match get_env_var env "SUDO_TELEGRAM_IDS" with
    | .error _ => .exited 1
    | .ok ids =>
      match get_env_var env "MONGO_DATABASE_URL" with
      | .error _ => .exited 1
      | .ok url => .running tok ids url

/-- models.py lines 7-14: DATABASE_URL is read, `if not DATABASE_URL` raises,
and a postgres:// scheme is rewritten to postgresql:// (first occurrence,
which by the startswith guard is the 11-character prefix). -/
def modelsDatabaseURL (env : Env) : Except Unit String :=
  match env "DATABASE_URL" with
  | none => .error ()
  | some v =>
    if v = "" then .error ()
    else if v.startsWith "postgres://" then .ok ("postgresql://" ++ v.drop 11)
    else .ok v

/-- main.py lines 10-13: module initialization reads BOT_TOKEN and MONGO_URI
with plain os.getenv and no validation whatsoever; the module has no exit
path, so initialization always proceeds toward serving with whatever values
(possibly absent) were found. -/
inductive MainInit
  | serving (token mongoUri : Option String)
deriving DecidableEq

/-- main.py module initialization (lines 10-13). -/
def mainBoot (env : Env) : MainInit :=
  .serving (env "BOT_TOKEN") (env "MONGO_URI")

/-- A concrete environment for main.py: BOT_TOKEN is set, MONGO_URI is absent. -/
def envC9 : Env := fun n => if n = "BOT_TOKEN" then some "t" else none

/-- The observation times of a run are bounded below by t and non-decreasing. -/
def timesLB (t : Time) : List (Observation × Time) → Bool
  | [] => true
  | p :: rest => (decide (t ≤ p.2)) && timesLB p.2 rest

/-- A sequence of save_or_update_user calls, each sampling the clock once
(both utcnow reads of the call return the same value). -/
def runUpserts (ops : List (Observation × Time)) (s : Store) : Store :=
  ops.foldl (fun st p => update_one st p.1 p.2 p.2) s

/-- Concrete records and observations used by the closed instances below. -/
def rec111 : Record := ⟨111, "u1", none, none, false, 0, 0⟩

def rec222 : Record := ⟨222, "u2", none, none, false, 0, 0⟩

def recAnn : Record := ⟨5, "Ann", some "", none, false, 0, 0⟩

def recBob : Record := ⟨7, "Bob", none, some "bb", false, 0, 0⟩

def obsA : Observation := ⟨42, "A", none, some "a1", false⟩

/-- The document produced by inserting obsA with utcnow samples 5 (for the
$set document) and 6 (for the $setOnInsert document). -/
def recBad : Record := ⟨42, "A", none, some "a1", false, 6, 5⟩

def obsW : Observation := ⟨7, "W", some "L", some "w", false⟩

def obsW2 : Observation := ⟨7, "X", none, some "x", true⟩

/-- The document after inserting obsW with both samples distinct (3 then 4). -/
def recW1ins : Record := ⟨7, "W", some "L", some "w", false, 4, 3⟩

/-- recW1ins after a second observation obsW2 updates it at sample 9. -/
def recW2upd : Record := ⟨7, "X", none, some "x", true, 4, 9⟩

def oA : Observation := ⟨7, "A", none, some "a", false⟩

def oB : Observation := ⟨7, "B", none, some "b", false⟩

/-- The survivor of upserting oA at time 1 then oB at time 2 on the empty store. -/
def recAB : Record := ⟨7, "B", none, some "b", false, 1, 2⟩

/-- A two-observation run of the same identity with single-sample calls. -/
def opsC3 : List (Observation × Time) := [(obsW, 3), (obsW2, 5)]

/-- The record produced by running opsC3 from the empty store. -/
def recC3 : Record := ⟨7, "X", none, some "x", true, 3, 5⟩

/-! ### Helper lemmas about the bot.py store operations -/

lemma findRec_cons (r : Record) (rs : Store) (i : Int) :
    findRec (r :: rs) i = if r.telegram_id == i then some r else findRec rs i := by
  unfold findRec
  rw [List.find?_cons]
  cases h : (r.telegram_id == i) <;> simp [h]

lemma update_one_absent (s : Store) (u : Observation) (tSet tSoi : Time)
    (h : findRec s u.id = none) :
    update_one s u tSet tSoi =
      s ++ [⟨u.id, u.first_name, u.last_name, u.username, u.is_bot, tSoi, tSet⟩] := by
  induction s with
  | nil => rfl
  | cons r rs ih =>
    rw [findRec_cons] at h
    cases hb : (r.telegram_id == u.id) with
    | true =>
      rw [hb] at h
      simp at h
    | false =>
      rw [hb] at h
      simp at h
      simp [update_one, hb, ih h]

lemma findRec_update_one_present (s : Store) (u : Observation) (tSet tSoi : Time)
    (old : Record) (h : findRec s u.id = some old) :
    findRec (update_one s u tSet tSoi) u.id =
      some ⟨old.telegram_id, u.first_name, u.last_name, u.username, u.is_bot,
        old.created_at, tSet⟩ := by
  induction s with
  | nil => simp [findRec, List.find?] at h
  | cons r rs ih =>
    rw [findRec_cons] at h
    cases hb : (r.telegram_id == u.id) with
    | true =>
      rw [hb] at h
      simp at h
      subst h
      simp [update_one, hb, findRec_cons]
    | false =>
      rw [hb] at h
      simp at h
      simp [update_one, hb, findRec_cons]
      exact ih h

lemma findRec_update_one (s : Store) (u : Observation) (tSet tSoi : Time) :
    ∃ r, findRec (update_one s u tSet tSoi) u.id = some r ∧ r.updated_at = tSet := by
  induction s with
  | nil =>
    refine ⟨⟨u.id, u.first_name, u.last_name, u.username, u.is_bot, tSoi, tSet⟩,
      ?_, rfl⟩
    simp [update_one, findRec_cons]
  | cons r rs ih =>
    cases hb : (r.telegram_id == u.id) with
    | true =>
      refine ⟨⟨r.telegram_id, u.first_name, u.last_name, u.username, u.is_bot,
        r.created_at, tSet⟩, ?_, rfl⟩
      simp [update_one, hb, findRec_cons]
    | false =>
      obtain ⟨r0, hr0, hup⟩ := ih
      refine ⟨r0, ?_, hup⟩
      simp [update_one, hb, findRec_cons, hr0]

lemma countId_update_one (s : Store) (u : Observation) (tSet tSoi : Time) :
    countId (update_one s u tSet tSoi) u.id = max 1 (countId s u.id) := by
  induction s with
  | nil =>
    have h1 : countId (update_one [] u tSet tSoi) u.id = 1 := by
      simp [update_one, countId, List.countP_cons]
    rw [h1]
    simp [countId]
  | cons r rs ih =>
    cases hb : (r.telegram_id == u.id) with
    | true =>
      have h1 : countId (update_one (r :: rs) u tSet tSoi) u.id =
          countId rs u.id + 1 := by
        simp [update_one, hb, countId, List.countP_cons]
      have h2 : countId (r :: rs) u.id = countId rs u.id + 1 := by
        simp [countId, List.countP_cons, hb]
      rw [h1, h2]
      omega
    | false =>
      have h1 : countId (update_one (r :: rs) u tSet tSoi) u.id =
          countId (update_one rs u tSet tSoi) u.id := by
        simp [update_one, hb, countId, List.countP_cons]
      have h2 : countId (r :: rs) u.id = countId rs u.id := by
        simp [countId, List.countP_cons, hb]
      rw [h1, h2, ih]

lemma update_one_created_bound (u : Observation) (t : Time) :
    ∀ s : Store, (∀ r ∈ s, r.created_at ≤ r.updated_at ∧ r.updated_at ≤ t) →
      ∀ r ∈ update_one s u t t, r.created_at ≤ r.updated_at ∧ r.updated_at ≤ t := by
  intro s
  induction s with
  | nil =>
    intro _ r hr
    simp [update_one] at hr
    subst hr
    exact ⟨le_refl t, le_refl t⟩
  | cons r0 rs ih =>
    intro h r hr
    cases hb : (r0.telegram_id == u.id) with
    | true =>
      rw [show update_one (r0 :: rs) u t t =
          ⟨r0.telegram_id, u.first_name, u.last_name, u.username, u.is_bot,
            r0.created_at, t⟩ :: rs from by simp [update_one, hb]] at hr
      rcases List.mem_cons.mp hr with h1 | h1
      · subst h1
        have h0 := h r0 (List.mem_cons_self r0 rs)
        exact ⟨le_trans h0.1 h0.2, le_refl t⟩
      · exact h r (List.mem_cons_of_mem r0 h1)
    | false =>
      rw [show update_one (r0 :: rs) u t t = r0 :: update_one rs u t t from by
        simp [update_one, hb]] at hr
      rcases List.mem_cons.mp hr with h1 | h1
      · subst h1
        exact h r (List.mem_cons_self r rs)
      · exact ih (fun x hx => h x (List.mem_cons_of_mem r0 hx)) r h1

lemma runUpserts_inv : ∀ (ops : List (Observation × Time)) (t : Time) (s : Store),
    timesLB t ops = true →
    (∀ r ∈ s, r.created_at ≤ r.updated_at ∧ r.updated_at ≤ t) →
    ∀ r ∈ runUpserts ops s, r.created_at ≤ r.updated_at := by
  intro ops
  induction ops with
  | nil =>
    intro t s _ hs r hr
    simp [runUpserts] at hr
    exact (hs r hr).1
  | cons p rest ih =>
    intro t s hlb hs r hr
    simp only [timesLB, Bool.and_eq_true] at hlb
    obtain ⟨h1, h2⟩ := hlb
    have h1' : t ≤ p.2 := of_decide_eq_true h1
    have hs2 : ∀ x ∈ s, x.created_at ≤ x.updated_at ∧ x.updated_at ≤ p.2 :=
      fun x hx => ⟨(hs x hx).1, le_trans (hs x hx).2 h1'⟩
    have hr2 : r ∈ runUpserts rest (update_one s p.1 p.2 p.2) := by
      simpa [runUpserts] using hr
    exact ih p.2 (update_one s p.1 p.2 p.2) h2
      (update_one_created_bound p.1 p.2 s hs2) r hr2

lemma pyJoin_ids : ∀ rs : Store,
    pyJoin ", " (rs.map (fun r => toString r.telegram_id)) =
      idListSpec (rs.map (fun r => r.telegram_id)) := by
  intro rs
  induction rs with
  | nil => rfl
  | cons r rs ih =>
    cases rs with
    | nil => rfl
    | cons r2 rs2 =>
      simp only [List.map_cons] at ih ⊢
      show toString r.telegram_id ++ ", " ++
          pyJoin ", " (toString r2.telegram_id ::
            rs2.map (fun x => toString x.telegram_id)) =
        toString r.telegram_id ++ ", " ++
          idListSpec (r2.telegram_id :: rs2.map (fun x => x.telegram_id))
      rw [ih]

lemma id_command_no_prop (sudoIds : List Int) (uid : Int)
    (scan : Except Unit Store) :
    (id_command sudoIds uid scan).propagates = false := by
  unfold id_command
  split <;> rfl

lemma full_command_no_prop (sudoIds : List Int) (uid : Int)
    (scan : Except Unit Store) :
    (full_command sudoIds uid scan).propagates = false := by
  unfold full_command
  split <;> rfl

lemma ping_command_no_prop (sudoIds : List Int) (uid : Int)
    (botLat dbLat : String) (png : Except Unit Unit) :
    (ping_command sudoIds uid botLat dbLat png).propagates = false := by
  unfold ping_command
  split <;> rfl

lemma botStartup_missing (env : Env)
    (h : env "TELEGRAM_BOT_TOKEN" = none ∨ env "SUDO_TELEGRAM_IDS" = none ∨
      env "MONGO_DATABASE_URL" = none) :
    botStartup env = .exited 1 := by
  rcases h with h | h | h
  · simp [botStartup, get_env_var, h]
  · rcases hT : env "TELEGRAM_BOT_TOKEN" with _ | v
    · simp [botStartup, get_env_var, hT]
    · by_cases hv : v = ""
      · simp [botStartup, get_env_var, hT, hv]
      · simp [botStartup, get_env_var, hT, hv, h]
  · rcases hT : env "TELEGRAM_BOT_TOKEN" with _ | v
    · simp [botStartup, get_env_var, hT]
    · by_cases hv : v = ""
      · simp [botStartup, get_env_var, hT, hv]
      · rcases hS : env "SUDO_TELEGRAM_IDS" with _ | w
        · simp [botStartup, get_env_var, hT, hv, hS]
        · by_cases hw : w = ""
          · simp [botStartup, get_env_var, hT, hv, hS, hw]
          · simp [botStartup, get_env_var, hT, hv, hS, hw, h]

/-! ### C1: upsert field semantics -/

/-- C1 counterexample: the claim fails on the code in two places.  First,
main.py's registration flow does not overwrite: after observing identity 42
with username a and then again with username b, the stored username is still
a (main.py start inserts only on first observation and otherwise leaves the
record untouched).  Second, bot.py's save_or_update_user samples
datetime.utcnow() twice — once for the $set document (updated_at) and once,
later, for the $setOnInsert document (created_at) — so on an insertion whose
samples are 5 and then 6 the new record does not satisfy
created_at = updated_at = now. -/
theorem C1_counterexample :
    (start (start [] 42 (some "a")).1 42 (some "b")).1 = [⟨42, some "a"⟩] ∧
    update_one [] obsA 5 6 = [recBad] ∧
    (recBad.created_at == recBad.updated_at) = false := by
  decide

/-- C1 (amended): bot.py's save_or_update_user upsert satisfies: if no record
with the observed id exists, a new record is appended whose four identity
fields come from the observation, whose updated_at is the first clock sample
of the call and whose created_at is the second (equal to now only when the two
samples coincide); if a record with that id exists, its first_name, last_name,
username and is_bot are overwritten with the observed values and updated_at is
set to the call's $set sample, while telegram_id and created_at are left
unchanged. -/
theorem C1_amended (s : Store) (u : Observation) (tSet tSoi : Time) :
    (findRec s u.id = none →
      update_one s u tSet tSoi =
        s ++ [⟨u.id, u.first_name, u.last_name, u.username, u.is_bot,
          tSoi, tSet⟩]) ∧
    (∀ old, findRec s u.id = some old →
      findRec (update_one s u tSet tSoi) u.id =
        some ⟨old.telegram_id, u.first_name, u.last_name, u.username, u.is_bot,
          old.created_at, tSet⟩) :=
  ⟨update_one_absent s u tSet tSoi,
   fun old h => findRec_update_one_present s u tSet tSoi old h⟩

/-- C1 witness: inserting obsW into the empty store at samples 3 and 4 appends
exactly the expected record, and a second observation of id 7 overwrites the
four fields and updated_at while keeping created_at. -/
theorem C1_witness :
    update_one [] obsW 3 4 = [recW1ins] ∧
    findRec (update_one [recW1ins] obsW2 9 10) 7 = some recW2upd :=
  ⟨(C1_amended [] obsW 3 4).1 (by decide),
   (C1_amended [recW1ins] obsW2 9 10).2 recW1ins (by decide)⟩

/-! ### C2: atomicity of the upsert -/

/-- C2 counterexample: main.py's registration is an application-level
read-then-write, and under the spec's concurrency model (handler invocations
may interleave) two concurrent /start invocations for id 42 can both observe
an absent record and both insert: the schedule A-read, B-read, A-write,
B-write ends with two records for user_id 42. -/
theorem C2_counterexample :
    (runSchedule 42 42 (some "a") (some "b") [Tid.A, Tid.B, Tid.A, Tid.B]).store =
      [⟨42, some "a"⟩, ⟨42, some "b"⟩] ∧
    countMId (runSchedule 42 42 (some "a") (some "b")
      [Tid.A, Tid.B, Tid.A, Tid.B]).store 42 = 2 := by
  decide

/-- C2 (amended): bot.py's save_or_update_user issues one single update_one
statement with upsert=True, atomic per call: on a store holding at most one
record for an id, two such upserts of that id executed in either
order leave exactly one record for the id, whose updated_at is one of the two
observation times.  main.py's start handler, by contrast, is find_one followed
by insert_one and is not atomic (see the counterexample). -/
theorem C2_amended (s : Store) (o1 o2 : Observation) (t1 t1' t2 t2' : Time)
    (hid : o1.id = o2.id) (hs : countId s o2.id ≤ 1) :
    countId (update_one (update_one s o1 t1 t1') o2 t2 t2') o2.id = 1 ∧
    (findRec (update_one (update_one s o1 t1 t1') o2 t2 t2') o2.id).isSome =
      true ∧
    ∀ r, findRec (update_one (update_one s o1 t1 t1') o2 t2 t2') o2.id =
      some r → r.updated_at = t1 ∨ r.updated_at = t2 := by
  obtain ⟨r0, hr0, hup⟩ := findRec_update_one (update_one s o1 t1 t1') o2 t2 t2'
  refine ⟨?_, ?_, ?_⟩
  · rw [countId_update_one]
    rw [← hid] at hs ⊢
    rw [countId_update_one]
    omega
  · rw [hr0]
    rfl
  · intro r hr
    rw [hr0] at hr
    exact Or.inr ((Option.some.inj hr) ▸ hup)

/-- C2 witness: upserting oA at time 1 and then oB at time 2 on the empty
store leaves exactly one record for id 7, and its updated_at is one of the
two observation times. -/
theorem C2_witness :
    countId (update_one (update_one [] oA 1 1) oB 2 2) oB.id = 1 ∧
    (recAB.updated_at = 1 ∨ recAB.updated_at = 2) :=
  ⟨(C2_amended [] oA oB 1 1 2 2 (by decide) (by decide)).1,
   (C2_amended [] oA oB 1 1 2 2 (by decide) (by decide)).2.2 recAB (by decide)⟩

/-! ### C3: created_at less-or-equal updated_at invariant -/

/-- C3 counterexample: immediately after a record's first insertion the
invariant fails when the call's two utcnow() samples differ: bot.py builds the
$set document (updated_at, sample 5) before the $setOnInsert document
(created_at, sample 6), so the fresh record has updated_at strictly below
created_at. -/
theorem C3_counterexample :
    update_one [] obsA 5 6 = [recBad] ∧
    recBad.updated_at < recBad.created_at := by
  decide

/-- C3 (amended): provided every save_or_update_user call samples the clock
once (both utcnow reads of a call coincide) and observation times are
non-decreasing, every record in the store resulting from any sequence of
upserts satisfies created_at less-or-equal updated_at, including immediately
after its first insertion. -/
theorem C3_amended (ops : List (Observation × Time)) (h : timesLB 0 ops = true) :
    ∀ r ∈ runUpserts ops [], r.created_at ≤ r.updated_at := by
  intro r hr
  exact runUpserts_inv ops 0 [] h
    (fun x hx => absurd hx (List.not_mem_nil x)) r hr

/-- C3 witness: the two-observation run opsC3 has non-decreasing times and its
resulting record satisfies the invariant. -/
theorem C3_witness :
    timesLB 0 opsC3 = true ∧ recC3.created_at ≤ recC3.updated_at :=
  ⟨by decide, C3_amended opsC3 (by decide) recC3 (by decide)⟩

/-! ### C4: the id export -/

/-- C4: for every non-empty sequence of records the /id export body is the
record ids rendered as decimal strings joined by a comma and a single space
(the code's join coincides with the spec's rendering), and in particular for
records with ids 111 and 222 in that order the output is exactly 111, 222. -/
theorem C4_renderIdList (rs : Store) (h : rs ≠ []) :
    renderIdList rs = idListSpec (rs.map (fun r => r.telegram_id)) ∧
    renderIdList [rec111, rec222] = "111, 222" :=
  ⟨pyJoin_ids rs, by decide⟩

/-- C4 witness: the rendering at the concrete two-record store. -/
theorem C4_witness :
    renderIdList [rec111, rec222] = idListSpec [(111 : Int), 222] ∧
    renderIdList [rec111, rec222] = "111, 222" :=
  C4_renderIdList [rec111, rec222] (by decide)

/-! ### C5: the full export -/

/-- C5 counterexample: the full export body is not just the record lines: the
code seeds report_lines with a header line, so for the single record
Ann/empty-last-name/no-username/id 5 the body is the header followed by
Ann, N/A, 5 — not the bare Ann, N/A, 5 the claim states. -/
theorem C5_counterexample :
    full_report_content [recAnn] =
      "Full Name, Username, Telegram ID\nAnn, N/A, 5" ∧
    (full_report_content [recAnn] == "Ann, N/A, 5") = false := by
  decide

/-- C5 (amended): for every non-empty sequence of records the /full export
attaches a document whose body is the header line Full Name, Username,
Telegram ID followed by one line per record, joined by newlines, with the
record count as caption; each record line is the first_name and last_name
joined by a single space and stripped of surrounding whitespace (a null
last_name is rendered by Python string formatting as the literal text None),
then @username or N/A, then the id; the record line for
Ann/empty-last-name/no-username/id 5 is exactly Ann, N/A, 5. -/
theorem C5_amended (sudoIds : List Int) (uid : Int) (rs : Store)
    (hadm : is_admin sudoIds uid = true) (h : rs ≠ []) :
    full_command sudoIds uid (.ok rs) =
      ⟨.doc "full_user_report.txt" (full_report_content rs)
        (some ("Total users registered: " ++ toString rs.length)), true, false⟩ ∧
    reportLine recAnn = "Ann, N/A, 5" ∧
    full_report_content [recAnn] = reportHeader ++ "\n" ++ "Ann, N/A, 5" ∧
    reportLine recBob = "Bob None, @bb, 7" := by
  refine ⟨?_, by decide, by decide, by decide⟩
  simp [full_command, full_reply, hadm, List.length_eq_zero, h]

/-- C5 witness: the export at the one-record store holding recAnn. -/
theorem C5_witness :
    full_command [1] 1 (.ok [recAnn]) =
      ⟨.doc "full_user_report.txt" (full_report_content [recAnn])
        (some ("Total users registered: " ++ toString ([recAnn] : Store).length)),
        true, false⟩ ∧
    reportLine recAnn = "Ann, N/A, 5" ∧
    full_report_content [recAnn] = reportHeader ++ "\n" ++ "Ann, N/A, 5" ∧
    reportLine recBob = "Bob None, @bb, 7" :=
  C5_amended [1] 1 [recAnn] (by decide) (by decide)

/-! ### C6: empty-store replies -/

/-- C6: with no stored records both exports reply with the distinguished
database-is-empty text rather than attaching an empty document, and that text
differs from the generic failure reply produced when the scan raises. -/
theorem C6_empty_vs_error (sudoIds : List Int) (uid : Int)
    (hadm : is_admin sudoIds uid = true) :
    (id_command sudoIds uid (.ok [])).reply = .text emptyDbMsg ∧
    (full_command sudoIds uid (.ok [])).reply = .text emptyDbMsg ∧
    (id_command sudoIds uid (.error ())).reply = .text reportErrMsg ∧
    (full_command sudoIds uid (.error ())).reply = .text reportErrMsg ∧
    (emptyDbMsg == reportErrMsg) = false := by
  refine ⟨?_, ?_, ?_, ?_, by decide⟩ <;>
    simp [id_command, full_command, id_reply, full_reply, hadm]

/-- C6 witness: the empty-store and failing-scan replies for a concrete admin. -/
theorem C6_witness :
    (id_command [1] 1 (.ok [])).reply = .text emptyDbMsg ∧
    (full_command [1] 1 (.ok [])).reply = .text emptyDbMsg ∧
    (id_command [1] 1 (.error ())).reply = .text reportErrMsg ∧
    (full_command [1] 1 (.error ())).reply = .text reportErrMsg ∧
    (emptyDbMsg == reportErrMsg) = false :=
  C6_empty_vs_error [1] 1 (by decide)

/-! ### C7: behaviour toward non-admin callers -/

/-- C7 counterexample: a non-admin invoking ping, id or full receives no
denial response at all — the handlers return bare (Reply.silent, i.e. none of
the outbound reply kinds text, document or edit is produced), so there is no
denial wording, contrary to the claim that a fixed denial response is sent. -/
theorem C7_counterexample :
    (ping_command [1] 2 "0.1" "0.2" (.ok ())).reply = .silent ∧
    (id_command [1] 2 (.ok [])).reply = .silent ∧
    (full_command [1] 2 (.ok [])).reply = .silent := by
  decide

/-- C7 (amended): for every caller that is not in the admin set, each
privileged command short-circuits before any store or report access
(storeAccessed is false) and produces no reply at all; this silence is
identical regardless of the caller, the latencies or the storage state, i.e.
regardless of why the actor is not privileged. -/
theorem C7_amended (sudoIds : List Int) (uid : Int) (botLat dbLat : String)
    (png : Except Unit Unit) (scan1 scan2 : Except Unit Store)
    (h : is_admin sudoIds uid = false) :
    ping_command sudoIds uid botLat dbLat png = ⟨.silent, false, false⟩ ∧
    id_command sudoIds uid scan1 = ⟨.silent, false, false⟩ ∧
    full_command sudoIds uid scan2 = ⟨.silent, false, false⟩ := by
  refine ⟨?_, ?_, ?_⟩ <;> simp [ping_command, id_command, full_command, h]

/-- C7 witness: caller 2 against admin set containing only 1. -/
theorem C7_witness :
    ping_command [1] 2 "0.10" "0.20" (.ok ()) = ⟨.silent, false, false⟩ ∧
    id_command [1] 2 (.ok []) = ⟨.silent, false, false⟩ ∧
    full_command [1] 2 (.error ()) = ⟨.silent, false, false⟩ :=
  C7_amended [1] 2 "0.10" "0.20" (.ok ()) (.ok []) (.error ()) (by decide)

/-! ### C8: storage faults at the handler boundary -/

/-- C8 counterexample: main.py's start handler has no try/except around its
find_one and insert_one, so a storage fault raised during the handler escapes
it instead of being caught at the handler boundary. -/
theorem C8_counterexample :
    mainStart 42 (some "a") .fault [] = Except.error () := rfl

/-- C8 (amended): in bot.py every storage fault inside a handler is caught and
does not propagate: save_or_update_user swallows the fault leaving the store
untouched, start_command replies identically whether or not the upsert
faulted, and the id, full and ping handlers never let an exception escape;
main.py's start handler, by contrast, propagates a storage fault out of the
handler. -/
theorem C8_amended (u : Observation) (tSet tSoi : Time) (s : Store)
    (sudoIds : List Int) (uid uid2 : Int) (uname : Option String) (ms : MStore)
    (botLat dbLat : String) (scan1 scan2 : Except Unit Store)
    (png : Except Unit Unit) :
    (save_or_update_user (some u) tSet tSoi .fault s).raised = false ∧
    (save_or_update_user (some u) tSet tSoi .fault s).store = s ∧
    (start_command (some u) tSet tSoi .fault s).2 =
      (start_command (some u) tSet tSoi .ok s).2 ∧
    (id_command sudoIds uid scan1).propagates = false ∧
    (full_command sudoIds uid scan2).propagates = false ∧
    (ping_command sudoIds uid botLat dbLat png).propagates = false ∧
    mainStart uid2 uname .fault ms = Except.error () :=
  ⟨rfl, rfl, rfl, id_command_no_prop sudoIds uid scan1,
   full_command_no_prop sudoIds uid scan2,
   ping_command_no_prop sudoIds uid botLat dbLat png, rfl⟩

/-! ### C9: required configuration at startup -/

/-- C9 counterexample: in the environment envC9 the storage connection string
MONGO_URI is absent, yet main.py's module initialization performs no
validation and reaches serving (its only outcome) with the missing value —
the process does not terminate with a fatal error. -/
theorem C9_counterexample :
    envC9 "MONGO_URI" = none ∧ mainBoot envC9 = .serving (some "t") none := by
  decide

/-- C9 (amended): bot.py exits with status 1 when any of its three required
environment variables is absent, and models.py raises when DATABASE_URL is
absent; main.py however reads BOT_TOKEN and MONGO_URI without validation and
always proceeds toward serving with whatever values were found. -/
theorem C9_amended (env : Env) :
    ((env "TELEGRAM_BOT_TOKEN" = none ∨ env "SUDO_TELEGRAM_IDS" = none ∨
      env "MONGO_DATABASE_URL" = none) → botStartup env = .exited 1) ∧
    (env "DATABASE_URL" = none → modelsDatabaseURL env = .error ()) ∧
    mainBoot env = .serving (env "BOT_TOKEN") (env "MONGO_URI") :=
  ⟨botStartup_missing env, fun h => by simp [modelsDatabaseURL, h], rfl⟩

/-- C9 witness: in envC9 both validating startups fail fatally. -/
theorem C9_witness :
    botStartup envC9 = .exited 1 ∧ modelsDatabaseURL envC9 = .error () :=
  ⟨(C9_amended envC9).1 (Or.inl (by decide)),
   (C9_amended envC9).2.1 (by decide)⟩

/-! ### C10: absent user guard -/

/-- C10: calling save_or_update_user with an absent user returns immediately
as a no-op: the collection is not accessed, the store is unchanged, and no
exception is raised, whatever the clock samples or the storage outcome would
have been. -/
theorem C10_no_user_noop (tSet tSoi : Time) (io : StoreOutcome) (s : Store) :
    save_or_update_user none tSet tSoi io s = ⟨s, false, false⟩ := rfl

end Userbase
